import Mathlib

/-!
Shallow embedding of the myopenclaw/monitoring-system repository.

Part A embeds the real-metrics monitoring script (source file `part_000`):
metric collection with fallback, alert rules, the bounded check log and the
summary status derivation.

Part B embeds the production dashboard server (source file `part_001`):
the configured service table, the single-service probe, the `Promise.all`
fan-out/fan-in join and the `/api/status` and `/api/health/:service`
handlers.

JavaScript numbers are modelled as rationals (`ℚ`) with the integer
roundings (`Math.round`, `parseInt` offsets) made explicit; strings are
Lean `String`s; thrown exceptions are `Except` values; the wall clock is a
`String` parameter.
-/

namespace Monitoring

/-- Models JavaScript `String.prototype.includes`: `sub` occurs contiguously
inside `s`. -/
def jsIncludes (s sub : String) : Bool := decide (sub.data <:+: s.data)

/-- Models JavaScript `Math.round` (round half toward positive infinity),
written with `Rat.floor` so it evaluates; `jsRound_eq_floor` below states
the usual mathematical form. -/
def jsRound (q : ℚ) : ℤ := (q + 1/2).floor

/-- Models `parseFloat(x.toFixed(2))`: rounding to two decimal places. -/
def roundTo2 (q : ℚ) : ℚ := (jsRound (q * 100) : ℚ) / 100

/-! ## Part A: data model of `getRealSystemMetrics` (part_000) -/

/-- The `adsDivision` sub-object of the metrics record. -/
structure AdsDivision where
  tiktokAgents : ℤ
  googleAgents : ℤ
  instagramAgents : ℤ
  linkedinAgents : ℤ
  totalAgents : ℤ
  status : String
deriving DecidableEq, Repr

/-- The `web3Division` sub-object of the metrics record. -/
structure Web3Division where
  salesAgents : ℤ
  devAgents : ℤ
  portfolioAgents : ℤ
  totalAgents : ℤ
  status : String
deriving DecidableEq, Repr

/-- The metrics record returned by `getRealSystemMetrics` /
`getFallbackMetrics` in part_000. -/
structure Metrics where
  timestamp : String
  cpuLoad : ℚ
  memoryUsage : ℤ
  memoryUsedGB : ℤ
  memoryTotalGB : ℤ
  memoryFreeGB : ℤ
  processCount : ℤ
  openclawStatus : String
  nodeProcesses : ℤ
  diskUsageGB : ℤ
  uptimeHours : ℤ
  networkConnections : ℤ
  hostname : String
  platform : String
  arch : String
  agentHealth : ℤ
  revenueTarget : ℤ
  responseTime : ℤ
  activeAgents : ℤ
  adsFarmingRevenue : ℤ
  web3DomainRevenue : ℤ
  totalRevenue : ℤ
  adsDivision : AdsDivision
  web3Division : Web3Division
deriving DecidableEq, Repr

/-- The raw operating-system readings consumed by `getRealSystemMetrics`
(part_000 lines 30-60): load average, memory sizes in bytes, the shell
pipeline counts, disk stats, uptime in seconds.  The inner
`ps aux | grep -i openclaw` query has its own try/catch in the source, so
its outcome is an `Except`. -/
structure RawReadings where
  loadavg1 : ℚ
  totalMem : ℚ
  freeMem : ℚ
  psCount : ℤ
  openclawProcCount : Except Unit ℤ
  nodeProcCount : ℤ
  blocks : ℚ
  blksize : ℚ
  uptime : ℚ
  netstatCount : ℤ
  hostname : String
  platform : String
  arch : String

/-- The constant `adsDivision` object used by both the real and the
fallback metrics. -/
def adsDivisionConst : AdsDivision :=
  { tiktokAgents := 4, googleAgents := 4, instagramAgents := 4,
    linkedinAgents := 3, totalAgents := 15, status := "ACTIVE" }

/-- The constant `web3Division` object used by both the real and the
fallback metrics. -/
def web3DivisionConst : Web3Division :=
  { salesAgents := 5, devAgents := 5, portfolioAgents := 5,
    totalAgents := 15, status := "ACTIVE" }

/-- The body of the `try` block of `getRealSystemMetrics`: derives the
metrics record from raw OS readings (part_000 lines 28-103).
`usedMem = totalMem - freeMem`, `memoryUsage = Math.round(usedMem/totalMem*100)`,
GB figures are `Math.round` of the byte counts divided by 2^30,
`processCount` subtracts the `ps aux` header line, and the business fields
are the hardcoded constants of the source. -/
def buildRealMetrics (ts : String) (r : RawReadings) : Metrics :=
  let usedMem := r.totalMem - r.freeMem
  { timestamp := ts
    cpuLoad := roundTo2 r.loadavg1
    memoryUsage := jsRound (usedMem / r.totalMem * 100)
    memoryUsedGB := jsRound (usedMem / (1024 * 1024 * 1024))
    memoryTotalGB := jsRound (r.totalMem / (1024 * 1024 * 1024))
    memoryFreeGB := jsRound (r.freeMem / (1024 * 1024 * 1024))
    processCount := r.psCount - 1
    openclawStatus :=
      match r.openclawProcCount with
      | .ok k => if k > 0 then "RUNNING" else "STOPPED"
      | .error _ => "ERROR"
    nodeProcesses := r.nodeProcCount
    diskUsageGB := jsRound (r.blocks * r.blksize / (1024 * 1024 * 1024))
    uptimeHours := jsRound (r.uptime / 3600)
    networkConnections := r.netstatCount
    hostname := r.hostname
    platform := r.platform
    arch := r.arch
    agentHealth := 95
    revenueTarget := 75
    responseTime := 20
    activeAgents := 53
    adsFarmingRevenue := 3250
    web3DomainRevenue := 2739
    totalRevenue := 5989
    adsDivision := adsDivisionConst
    web3Division := web3DivisionConst }

/-- Function `getFallbackMetrics` (part_000 lines 111-151): the fixed simulated
metrics substituted when collecting the real ones throws. -/
def getFallbackMetrics (ts : String) : Metrics :=
  { timestamp := ts
    cpuLoad := 3/2
    memoryUsage := 85
    memoryUsedGB := 12
    memoryTotalGB := 16
    memoryFreeGB := 4
    processCount := 400
    openclawStatus := "RUNNING"
    nodeProcesses := 10
    diskUsageGB := 250
    uptimeHours := 24
    networkConnections := 100
    hostname := "localhost"
    platform := "darwin"
    arch := "arm64"
    agentHealth := 95
    revenueTarget := 75
    responseTime := 20
    activeAgents := 53
    adsFarmingRevenue := 3250
    web3DomainRevenue := 2739
    totalRevenue := 5989
    adsDivision := adsDivisionConst
    web3Division := web3DivisionConst }

/-- Function `getRealSystemMetrics` (part_000 lines 25-108): the outer try/catch —
on any error in the OS queries the fallback metrics are returned for the
same timestamp; no error ever propagates to the caller. -/
def getRealSystemMetrics (ts : String) (outcome : Except Unit RawReadings) : Metrics :=
  match outcome with
  | .ok r => buildRealMetrics ts r
  | .error _ => getFallbackMetrics ts

/-! ## Part A: alert rules (`checkRealAlerts`, part_000 lines 154-185) -/

/-- The CPU alert string pushed at line 159. -/
def cpuAlertStr (m : Metrics) : String :=
  let c := m.cpuLoad
  s!"High CPU load: {c} (1-minute average)"

/-- The critical memory alert string pushed at line 164. -/
def memCritStr (m : Metrics) : String :=
  let p := m.memoryUsage
  let u := m.memoryUsedGB
  let t := m.memoryTotalGB
  s!"🔴 CRITICAL: Memory usage: {p}% ({u}GB/{t}GB)"

/-- The warning memory alert string pushed at line 166. -/
def memWarnStr (m : Metrics) : String :=
  let p := m.memoryUsage
  s!"🟡 WARNING: High memory usage: {p}%"

/-- The OpenClaw status alert string pushed at line 171. -/
def openclawAlertStr (m : Metrics) : String :=
  let o := m.openclawStatus
  s!"OpenClaw status: {o}"

/-- The disk alert string pushed at line 176. -/
def diskAlertStr (m : Metrics) : String :=
  let d := m.diskUsageGB
  s!"High disk usage: {d}GB"

/-- The process-count alert string pushed at line 181. -/
def procAlertStr (m : Metrics) : String :=
  let p := m.processCount
  s!"High process count: {p}"

/-- Function `checkRealAlerts` (part_000 lines 154-185): the five alert rules,
appended to the `alerts` array in source order — CPU, memory
(critical else warning), OpenClaw status, disk, process count. -/
def checkRealAlerts (m : Metrics) : List String :=
  let alerts : List String := []
  let alerts := if m.cpuLoad > 5 then alerts ++ [cpuAlertStr m] else alerts
  let alerts :=
    if m.memoryUsage > 95 then alerts ++ [memCritStr m]
    else if m.memoryUsage > 90 then alerts ++ [memWarnStr m]
    else alerts
  let alerts := if m.openclawStatus ≠ "RUNNING" then alerts ++ [openclawAlertStr m] else alerts
  let alerts := if m.diskUsageGB > 200 then alerts ++ [diskAlertStr m] else alerts
  let alerts := if m.processCount > 500 then alerts ++ [procAlertStr m] else alerts
  alerts

/-- The contribution of the CPU rule alone (line 158-160). -/
def cpuAlerts (m : Metrics) : List String :=
  if m.cpuLoad > 5 then [cpuAlertStr m] else []

/-- The contribution of the memory rule alone (lines 162-167). -/
def memoryAlerts (m : Metrics) : List String :=
  if m.memoryUsage > 95 then [memCritStr m]
  else if m.memoryUsage > 90 then [memWarnStr m]
  else []

/-- The contribution of the OpenClaw rule alone (lines 170-172). -/
def openclawAlerts (m : Metrics) : List String :=
  if m.openclawStatus ≠ "RUNNING" then [openclawAlertStr m] else []

/-- The contribution of the disk rule alone (lines 175-177). -/
def diskAlerts (m : Metrics) : List String :=
  if m.diskUsageGB > 200 then [diskAlertStr m] else []

/-- The contribution of the process-count rule alone (lines 180-182). -/
def processAlerts (m : Metrics) : List String :=
  if m.processCount > 500 then [procAlertStr m] else []

/-- The full fixed-order sequence of rule strings, one per rule slot, in
the order the source evaluates them. -/
def allRuleStrings (m : Metrics) : List String :=
  [cpuAlertStr m, memCritStr m, memWarnStr m, openclawAlertStr m,
   diskAlertStr m, procAlertStr m]

/-! ## Part A: check log and summary (part_000 lines 188-230) -/

/-- One entry of `logs.checks`: the record built by `logCheck`
(part_000 lines 191-195).  `alerts` is `null` (here `none`) when the alert
list was empty. -/
structure Check where
  timestamp : String
  metrics : Metrics
  alerts : Option (List String)
deriving DecidableEq, Repr

/-- The JSON log state `{startTime, checks, metrics:{totalChecks, totalAlerts}}`
(part_000 lines 10-22). -/
structure LogState where
  startTime : String
  checks : List Check
  totalChecks : ℤ
  totalAlerts : ℤ
deriving DecidableEq, Repr

/-- The check record `{timestamp, metrics, alerts: alerts.length > 0 ? alerts : null}`
built at part_000 lines 191-195. -/
def mkCheck (m : Metrics) (alerts : List String) : Check :=
  { timestamp := m.timestamp
    metrics := m
    alerts := if alerts.length > 0 then some alerts else none }

/-- Function `logCheck` (part_000 lines 188-209): appends the check, bumps the
counters, and truncates `checks` to its last 100 entries
(`logs.checks.slice(-100)`) when the length exceeds 100.  Returns the new
log state and the appended check. -/
def logCheck (logs : LogState) (m : Metrics) (alerts : List String) : LogState × Check :=
  let check := mkCheck m alerts
  let cs := logs.checks ++ [check]
  let cs := if cs.length > 100 then cs.drop (cs.length - 100) else cs
  ({ startTime := logs.startTime
     checks := cs
     totalChecks := logs.totalChecks + 1
     totalAlerts := logs.totalAlerts + alerts.length }, check)

/-- The `systemStatus` derivation of `generateSummary` (part_000 lines
216-221): `HEALTHY` unless the last check exists and stored a non-null
alert list, in which case `CRITICAL` when some stored alert contains
`🔴 CRITICAL` and `WARNING` otherwise. -/
def generateSummaryStatus (lastCheck : Option Check) : String :=
  match lastCheck with
  | none => "HEALTHY"
  | some c =>
    match c.alerts with
    | none => "HEALTHY"
    | some as => if as.any (fun a => jsIncludes a "🔴 CRITICAL") then "CRITICAL" else "WARNING"

/-- The part of one `runRealMonitoring` cycle (part_000 lines 376-420) that
the claims observe: collect metrics (with fallback), evaluate alerts, log
the check, and derive the summary status from the last logged check. -/
structure CycleResult where
  success : Bool
  metrics : Metrics
  alerts : List String
  logs : LogState
  systemStatus : String
deriving Repr

/-- One monitoring cycle of `runRealMonitoring`: every step is total, so
the cycle always returns `success := true` — a metric failure is absorbed
by `getRealSystemMetrics` and never aborts the cycle. -/
def runMonitoringCycle (ts : String) (outcome : Except Unit RawReadings)
    (logs : LogState) : CycleResult :=
  let m := getRealSystemMetrics ts outcome
  let alerts := checkRealAlerts m
  let (logs', _) := logCheck logs m alerts
  { success := true
    metrics := m
    alerts := alerts
    logs := logs'
    systemStatus := generateSummaryStatus logs'.checks.getLast? }

/-! ## Part B: service probes and the dashboard endpoints (part_001) -/

/-- The configured service table `SERVICES` (part_001 lines 18-23), in
object-literal insertion order (= `Object.entries` order). -/
def SERVICES : List (String × String) :=
  [("ollama-api", "http://localhost:3002/health"),
   ("super-product", "http://localhost:3004/health"),
   ("kimi-integration", "http://localhost:3006/health"),
   ("system", "local")]

/-- Whether the second character list begins with the first. -/
def listStartsWith : List Char → List Char → Bool
  | [], _ => true
  | _ :: _, [] => false
  | p :: ps, c :: cs => p == c && listStartsWith ps cs

/-- Replace the first occurrence of `pat` (non-empty in all uses) by `rep`. -/
def replaceFirstChars (pat rep : List Char) : List Char → List Char
  | [] => []
  | c :: cs =>
    if listStartsWith pat (c :: cs) then rep ++ (c :: cs).drop pat.length
    else c :: replaceFirstChars pat rep cs

/-- Models JavaScript `String.prototype.replace` with a string pattern:
only the first occurrence is replaced. -/
def jsReplaceFirst (s pat rep : String) : String :=
  ⟨replaceFirstChars pat.data rep.data s.data⟩

/-- Models `x || dflt` on an optional string: JavaScript `||` falls back
on a missing or empty string. -/
def jsOrDefault (x : Option String) (dflt : String) : String :=
  match x with
  | some s => if s = "" then dflt else s
  | none => dflt

/-- The result record of `checkService` (part_001 lines 79-117).
`responseTime` models `Date.now() - startTime` in milliseconds. -/
structure ServiceStatus where
  name : String
  url : String
  status : String
  responseTime : ℕ
  version : Option String
  error : Option String
  timestamp : String
  emoji : String
deriving DecidableEq, Repr

/-- How one `axios.get(url, {timeout: 5000})` call ends.  With the default
`validateStatus`, axios rejects (throws) on any non-2xx response, on any
network error and on timeout, so all three land in the `catch` branch of
`checkService`; a fulfilled promise is a 2xx response within the timeout.
Each constructor carries the elapsed milliseconds and, for the throwing
cases, the `error.message` string. -/
inductive ProbeOutcome where
  | ok (elapsedMs : ℕ) (dataVersion : Option String)
  | networkError (elapsedMs : ℕ) (message : String)
  | httpError (elapsedMs : ℕ) (statusCode : ℕ) (message : String)
  | timeout (elapsedMs : ℕ) (message : String)
deriving DecidableEq, Repr

/-- Function `checkService` (part_001 lines 79-117).  The `url === 'local'` branch
returns a fixed healthy record before any request is made; a fulfilled
request yields a healthy record with the measured response time; any
thrown error yields a critical record whose `error` field is the thrown
message.  `now` models `new Date().toISOString()`. -/
def checkService (now : String) (name url : String) (outcome : ProbeOutcome) : ServiceStatus :=
  if url = "local" then
    { name := name, url := "System", status := "healthy", responseTime := 1,
      version := none, error := none, timestamp := now, emoji := "💻" }
  else
    match outcome with
    | .ok elapsed dataVersion =>
      { name := name
        url := jsReplaceFirst url "http://localhost:" "localhost:"
        status := "healthy"
        responseTime := elapsed
        version := some (jsOrDefault dataVersion "1.0.0")
        error := none
        timestamp := now
        emoji := if jsIncludes name "ollama" then "🦙" else "🖼️" }
    | .networkError elapsed msg | .httpError elapsed _ msg | .timeout elapsed msg =>
      { name := name
        url := jsReplaceFirst url "http://localhost:" "localhost:"
        status := "critical"
        responseTime := elapsed
        version := none
        error := some msg
        timestamp := now
        emoji := "⚠️" }

/-- The fan-in of `Promise.all`: starting from an array of unfilled slots,
each task writes its own slot as it completes, in completion order
`order`; the promise resolves once every index has completed. -/
def promiseAll (n : ℕ) (order : List (Fin n)) (res : Fin n → α) : List (Option α) :=
  order.foldl (fun slots i => slots.set i.val (some (res i))) (List.replicate n none)

/-- The `services` array built by `GET /api/status` (part_001 lines
673-675): `Promise.all(Object.entries(SERVICES).map(([name, url]) =>
checkService(name, url)))`, with `order` the completion order of the
probes and `outcomes` the outcome of each probe. -/
def statusServices (now : String) (targets : List (String × String))
    (order : List (Fin targets.length)) (outcomes : Fin targets.length → ProbeOutcome) :
    List (Option ServiceStatus) :=
  promiseAll targets.length order
    (fun i => checkService now (targets.get i).1 (targets.get i).2 (outcomes i))

/-! ### `getSystemMetrics` of part_001 (lines 26-77) -/

/-- Raw OS readings consumed by part_001's `getSystemMetrics`.  The
`fs.statfsSync` call can throw (there is no try/catch inside
`getSystemMetrics`), which is modelled at the call site; `memPercent`,
`diskPercent` and `cpuUsage` are taken after the source's `toFixed`
roundings, which no claim depends on. -/
structure OsReadings where
  totalMemGB : ℚ
  freeMemGB : ℚ
  totalDiskGB : ℚ
  freeDiskGB : ℚ
  cpuUsagePercent : ℚ
  uptimeStr : String

/-- The memory block of the part_001 metrics value. -/
structure MemInfo where
  total : ℚ
  used : ℚ
  free : ℚ
  percent : ℚ
deriving Repr

/-- The metrics value returned by part_001's `getSystemMetrics`. -/
structure SysMetrics where
  cpu : ℚ
  memory : MemInfo
  disk : MemInfo
  uptime : String
  health : String
deriving Repr

/-- The health classification of part_001 lines 56-58. -/
def computeHealth (memPercent cpuUsage : ℚ) : String :=
  if memPercent > 90 ∨ cpuUsage > 90 then "critical"
  else if memPercent > 70 ∨ cpuUsage > 70 then "warning"
  else "healthy"

/-- part_001 `getSystemMetrics` (lines 26-77), on readings for which the
`statfsSync` call succeeded. -/
def getSystemMetrics (r : OsReadings) : SysMetrics :=
  let usedMem := r.totalMemGB - r.freeMemGB
  let memPercent := usedMem / r.totalMemGB * 100
  let usedDisk := r.totalDiskGB - r.freeDiskGB
  let diskPercent := usedDisk / r.totalDiskGB * 100
  { cpu := r.cpuUsagePercent
    memory := { total := r.totalMemGB, used := usedMem, free := r.freeMemGB,
                percent := memPercent }
    disk := { total := r.totalDiskGB, used := usedDisk, free := r.freeDiskGB,
              percent := diskPercent }
    uptime := r.uptimeStr
    health := computeHealth memPercent r.cpuUsagePercent }

/-- The JSON body returned by `GET /api/status` on success (part_001 lines
677-687); the platform block is constant and omitted from the model's
observations. -/
structure StatusResponse where
  timestamp : String
  system : SysMetrics
  services : List (Option ServiceStatus)
deriving Repr

/-- The `GET /api/status` handler (part_001 lines 669-693).  The whole
body sits in a `try`: if `getSystemMetrics` throws (its `statfsSync` call
has no internal catch), the `catch` branch answers
`res.status(500).json({error})`; otherwise the snapshot is returned.
`checkService` itself never throws, so the probes contribute no errors. -/
def apiStatus (now : String) (readings : Except String OsReadings)
    (order : List (Fin SERVICES.length)) (outcomes : Fin SERVICES.length → ProbeOutcome) :
    Except (ℕ × String) StatusResponse :=
  match readings with
  | .error msg => .error (500, msg)
  | .ok r =>
    .ok { timestamp := now
          system := getSystemMetrics r
          services := statusServices now SERVICES order outcomes }

/-- The own property names of `Object.prototype` in Node/V8.  `SERVICES`
is a plain object literal, so a bracket lookup that misses every own
property continues along the prototype chain and finds these; each of
them evaluates to a truthy value (a built-in function, or the
`Object.prototype` object itself in the case of the `__proto__`
accessor). -/
def objectPrototypeProps : List String :=
  ["constructor", "__defineGetter__", "__defineSetter__", "hasOwnProperty",
   "__lookupGetter__", "__lookupSetter__", "isPrototypeOf",
   "propertyIsEnumerable", "toString", "valueOf", "__proto__",
   "toLocaleString"]

/-- The value of a JavaScript bracket lookup on the `SERVICES` object
literal: a configured URL string (own property), a truthy non-string
value inherited from `Object.prototype`, or `undefined` (falsy). -/
inductive JsPropValue where
  | ownString (s : String)
  | inherited
  | undefinedValue
deriving DecidableEq, Repr

/-- The lookup `SERVICES[service]` (part_001 line 701), including the
prototype chain of the object literal: a configured name yields its URL
string, an unconfigured name that is an `Object.prototype` member yields
that inherited truthy value, and anything else is `undefined`. -/
def servicesLookup (service : String) : JsPropValue :=
  match SERVICES.find? (fun p => p.1 = service) with
  | some p => .ownString p.2
  | none => if service ∈ objectPrototypeProps then .inherited else .undefinedValue

/-- The observable outcome of `GET /api/health/:service` (part_001 lines
699-709): the 404 payload, a probed `ServiceStatus`, or an unhandled
error escaping the handler so that no response is produced. -/
inductive HealthResponse where
  | notFound
  | status (s : ServiceStatus)
  | unhandledError (msg : String)
deriving DecidableEq, Repr

/-- The `GET /api/health/:service` handler (part_001 lines 699-709).
`if (!url)` takes the 404 branch only when the lookup is `undefined`;
both the configured URL strings and the values inherited from
`Object.prototype` are truthy and bypass it.  A configured name is
probed once and its status returned.  A prototype-member name reaches
`checkService` with a non-string `url`: the `url === 'local'` test
fails, the axios call rejects, and the `catch` block's
`url.replace('http://localhost:', 'localhost:')` throws
`TypeError: url.replace is not a function`, which escapes `checkService`
and the handler (neither has a surrounding try/catch), so no HTTP
response is sent.  The second component counts `checkService`
invocations. -/
def apiHealth (now : String) (service : String) (outcome : ProbeOutcome) :
    HealthResponse × ℕ :=
  match servicesLookup service with
  | .undefinedValue => (.notFound, 0)
  | .ownString url => (.status (checkService now service url outcome), 1)
  | .inherited => (.unhandledError "url.replace is not a function", 1)

/-- Concrete readings whose memory used ratio is exactly 0.951 and whose
remaining values keep every other alert rule quiet (load average 1, 100
processes, one OpenClaw process, a tiny disk). -/
def rawSample951 : RawReadings :=
  { loadavg1 := 1, totalMem := 1000, freeMem := 49, psCount := 100,
    openclawProcCount := .ok 1, nodeProcCount := 2, blocks := 10,
    blksize := 1, uptime := 3600, netstatCount := 5, hostname := "h",
    platform := "linux", arch := "x64" }

/-- Concrete readings whose memory used ratio is exactly 0.90. -/
def rawSample90 : RawReadings :=
  { rawSample951 with freeMem := 100 }

/-- Concrete readings whose only firing alert rule is the CPU rule
(load average 6, memory at 50%, everything else quiet). -/
def rawSampleCpu : RawReadings :=
  { rawSample951 with loadavg1 := 6, freeMem := 500 }

/-- The metrics record collected from `rawSample951`. -/
def metrics951 : Metrics := buildRealMetrics "2026-02-03T04:05:06.000Z" rawSample951

/-- The metrics record collected from `rawSampleCpu`. -/
def metricsCpu : Metrics := buildRealMetrics "2026-02-03T04:05:06.000Z" rawSampleCpu

/-- An empty initial log state, as written by `initializeLogs`
(part_000 lines 10-22). -/
def emptyLogs : LogState :=
  { startTime := "2026-02-03T00:00:00.000Z", checks := [], totalChecks := 0,
    totalAlerts := 0 }

/-- A probe-outcome assignment on which every real request times out. -/
def failingOutcomes : Fin SERVICES.length → ProbeOutcome :=
  fun _ => .timeout 5000 "timeout of 5000ms exceeded"

/-- A completion order in which the last-dispatched probe finishes first. -/
def reversedOrder : List (Fin SERVICES.length) :=
  (List.finRange SERVICES.length).reverse

/-! ## Helper lemmas -/

theorem jsRound_eq_floor (q : ℚ) : jsRound q = ⌊q + 1/2⌋ := by
  rw [jsRound, Rat.floor_def, Rat.floor_def']

/-- The imperative push sequence of `checkRealAlerts` equals the
concatenation of the five per-rule contributions, in rule order. -/
theorem checkRealAlerts_decomp (m : Metrics) :
    checkRealAlerts m =
      cpuAlerts m ++ memoryAlerts m ++ openclawAlerts m ++ diskAlerts m ++
        processAlerts m := by
  simp only [checkRealAlerts, cpuAlerts, memoryAlerts, openclawAlerts,
    diskAlerts, processAlerts]
  split_ifs <;> simp

theorem getLast?_drop_of_lt {α : Type} (l : List α) (k : ℕ) (h : k < l.length) :
    (l.drop k).getLast? = l.getLast? := by
  conv_rhs => rw [← List.take_append_drop k l]
  rw [List.getLast?_append]
  have hne : l.drop k ≠ [] := by
    rw [ne_eq, List.drop_eq_nil_iff]
    omega
  obtain ⟨x, hx⟩ := Option.isSome_iff_exists.mp (List.getLast?_isSome.mpr hne)
  rw [hx]
  rfl

/-- The last entry of the log after `logCheck` is the check just appended,
whether or not the retention cap truncated the front. -/
theorem logCheck_getLast (logs : LogState) (m : Metrics) (alerts : List String) :
    (logCheck logs m alerts).1.checks.getLast? = some (mkCheck m alerts) := by
  simp only [logCheck]
  split
  · rw [getLast?_drop_of_lt _ _ (by omega), List.getLast?_concat]
  · exact List.getLast?_concat _

/-- Writing slots in any completion order preserves the array length. -/
theorem foldl_set_length {α : Type} {n : ℕ} (res : Fin n → α)
    (order : List (Fin n)) (slots : List (Option α)) :
    (order.foldl (fun s i => s.set i.val (some (res i))) slots).length = slots.length := by
  induction order generalizing slots with
  | nil => rfl
  | cons i order ih => simp [List.foldl_cons, ih, List.length_set]

/-- After the writes of a completion order, a slot holds its own task's
result exactly when its index appears in the order; all writes to a slot
carry that same result, so the write order is immaterial. -/
theorem foldl_set_getElem {α : Type} {n : ℕ} (res : Fin n → α)
    (order : List (Fin n)) (slots : List (Option α))
    (hlen : slots.length = n) (j : Fin n) :
    (order.foldl (fun s i => s.set i.val (some (res i))) slots)[j.val]? =
      if j ∈ order then some (some (res j)) else slots[j.val]? := by
  induction order generalizing slots with
  | nil => simp
  | cons i order ih =>
    rw [List.foldl_cons, ih _ (by rw [List.length_set]; exact hlen)]
    by_cases hj : j ∈ order
    · simp [hj, List.mem_cons]
    · by_cases hij : j = i
      · subst hij
        simp [hj, List.mem_cons, List.getElem?_set, hlen, j.isLt]
      · have hv : i.val ≠ j.val := fun hval => hij (Fin.ext hval.symm)
        simp [hj, hij, List.mem_cons, List.getElem?_set, hv]

/-- The fan-in property of `Promise.all`: once the completion order is a
permutation of all task indices (every task has settled), the resolved
array holds every task's result at that task's dispatch index, whatever
the completion order was. -/
theorem promiseAll_of_perm {α : Type} {n : ℕ} (res : Fin n → α)
    (order : List (Fin n)) (h : order.Perm (List.finRange n)) :
    promiseAll n order res = (List.finRange n).map (fun i => some (res i)) := by
  apply List.ext_getElem?
  intro k
  by_cases hk : k < n
  · have hj : (⟨k, hk⟩ : Fin n) ∈ order := h.mem_iff.mpr (List.mem_finRange _)
    rw [promiseAll, foldl_set_getElem res order _ (List.length_replicate n none) ⟨k, hk⟩,
      if_pos hj, List.getElem?_map,
      List.getElem?_eq_getElem (by rw [List.length_finRange]; exact hk)]
    simp [List.getElem_finRange]
  · have hk' : n ≤ k := Nat.le_of_not_lt hk
    have h₁ : (promiseAll n order res).length ≤ k := by
      rw [promiseAll, foldl_set_length, List.length_replicate]
      exact hk'
    have h₂ : ((List.finRange n).map (fun i => some (res i))).length ≤ k := by
      rw [List.length_map, List.length_finRange]
      exact hk'
    rw [List.getElem?_eq_none h₁, List.getElem?_eq_none h₂]

end Monitoring

namespace Monitoring

/-! ## Claim theorems -/

/-- C3 (confirmed): for every starting history state and appended check,
after `logCheck` the `checks` sequence has length at most 100 (exactly
`min (previous+1) 100`), and the removed entries are exactly the oldest
`previous+1-100` ones: the surviving sequence is a suffix of the appended
sequence, so every survivor keeps its original relative order. -/
theorem c3_logCheck_retention (logs : LogState) (m : Metrics) (alerts : List String) :
    (logCheck logs m alerts).1.checks.length ≤ 100 ∧
    (logCheck logs m alerts).1.checks.length = min (logs.checks.length + 1) 100 ∧
    ∃ removed : List Check,
      removed ++ (logCheck logs m alerts).1.checks = logs.checks ++ [mkCheck m alerts] ∧
      removed.length = logs.checks.length + 1 - 100 := by
  simp only [logCheck]
  split
  case isTrue h =>
    refine ⟨?_, ?_, List.take _ _, List.take_append_drop _ _, ?_⟩
    · simp only [List.length_drop, List.length_append, List.length_cons,
        List.length_nil] at h ⊢
      omega
    · simp only [List.length_drop, List.length_append, List.length_cons,
        List.length_nil] at h ⊢
      omega
    · simp only [List.length_take, List.length_append, List.length_cons,
        List.length_nil] at h ⊢
      omega
  case isFalse h =>
    refine ⟨?_, ?_, [], rfl, ?_⟩ <;>
      simp only [List.length_append, List.length_cons, List.length_nil,
        gt_iff_lt, not_lt] at h ⊢ <;>
      omega

/-- C8 (confirmed): when the underlying OS metric query errors,
`getRealSystemMetrics` returns the fallback metrics for the same timestamp
instead of propagating the error, and the enclosing monitoring cycle still
completes successfully with that fallback value. -/
theorem c8_metric_failure_uses_fallback (ts : String) (logs : LogState) :
    getRealSystemMetrics ts (.error ()) = getFallbackMetrics ts ∧
    (runMonitoringCycle ts (.error ()) logs).success = true ∧
    (runMonitoringCycle ts (.error ()) logs).metrics = getFallbackMetrics ts :=
  ⟨rfl, rfl, rfl⟩

/-- C9 (confirmed): alert-rule evaluation is deterministic — equal metrics
inputs produce element-for-element equal alert lists — and the produced
list always follows the fixed rule order CPU, memory, OpenClaw status,
disk, process count: it is a sublist of the full rule-order sequence. -/
theorem c9_alerts_deterministic_fixed_order (m₁ m₂ : Metrics) (h : m₁ = m₂) :
    checkRealAlerts m₁ = checkRealAlerts m₂ ∧
    (checkRealAlerts m₁).Sublist (allRuleStrings m₁) := by
  subst h
  refine ⟨rfl, ?_⟩
  rw [checkRealAlerts_decomp]
  have hrw : allRuleStrings m₁ =
      [cpuAlertStr m₁] ++ ([memCritStr m₁, memWarnStr m₁] ++
        ([openclawAlertStr m₁] ++ ([diskAlertStr m₁] ++ [procAlertStr m₁]))) := rfl
  rw [hrw, List.append_assoc, List.append_assoc, List.append_assoc]
  refine List.Sublist.append ?_ (List.Sublist.append ?_ (List.Sublist.append ?_
    (List.Sublist.append ?_ ?_)))
  · unfold cpuAlerts; split_ifs <;> simp
  · unfold memoryAlerts; split_ifs <;> simp
  · unfold openclawAlerts; split_ifs <;> simp
  · unfold diskAlerts; split_ifs <;> simp
  · unfold processAlerts; split_ifs <;> simp

/-- Witness for C9 at the concrete fallback metrics record. -/
theorem c9_alerts_deterministic_fixed_order_witness :
    checkRealAlerts (getFallbackMetrics "t") = checkRealAlerts (getFallbackMetrics "t") ∧
    (checkRealAlerts (getFallbackMetrics "t")).Sublist
      (allRuleStrings (getFallbackMetrics "t")) :=
  c9_alerts_deterministic_fixed_order (getFallbackMetrics "t") (getFallbackMetrics "t") rfl

/-- First fact about `metrics951`: the rounded integer memory percentage
of a used ratio of exactly 0.951 is 95. -/
theorem metrics951_memoryUsage : metrics951.memoryUsage = 95 := by
  show jsRound ((rawSample951.totalMem - rawSample951.freeMem) / rawSample951.totalMem * 100) = 95
  rw [jsRound_eq_floor]
  norm_num [rawSample951]

theorem metrics951_cpuLoad : metrics951.cpuLoad = 1 := by
  show roundTo2 rawSample951.loadavg1 = 1
  rw [roundTo2, jsRound_eq_floor]
  norm_num [rawSample951]

theorem metrics951_openclawStatus : metrics951.openclawStatus = "RUNNING" := rfl

theorem metrics951_diskUsageGB : metrics951.diskUsageGB = 0 := by
  show jsRound (rawSample951.blocks * rawSample951.blksize / (1024 * 1024 * 1024)) = 0
  rw [jsRound_eq_floor]
  norm_num [rawSample951]

theorem metrics951_processCount : metrics951.processCount = 99 := by
  show rawSample951.psCount - 1 = 99
  norm_num [rawSample951]

/-- The alerts produced on a memory used ratio of exactly 0.951 with all
other rules quiet: a single warning-tagged memory alert. -/
theorem checkRealAlerts_metrics951 :
    checkRealAlerts metrics951 = ["🟡 WARNING: High memory usage: 95%"] := by
  rw [checkRealAlerts_decomp]
  rw [cpuAlerts.eq_def, memoryAlerts.eq_def, openclawAlerts.eq_def,
    diskAlerts.eq_def, processAlerts.eq_def, memWarnStr.eq_def]
  rw [metrics951_cpuLoad, metrics951_memoryUsage, metrics951_openclawStatus,
    metrics951_diskUsageGB, metrics951_processCount]
  norm_num
  decide

/-- C1 (corrected): a memory used ratio of exactly 0.951 rounds to the
integer percentage 95, which does not exceed the critical threshold 95,
so the memory rule emits the WARNING-tagged alert, not a CRITICAL one;
a ratio of exactly 0.90 rounds to 90 and emits no memory alert at all. -/
theorem c1_memory_boundary_alerts (ts : String) (r r' : RawReadings)
    (hr : (r.totalMem - r.freeMem) / r.totalMem = 951 / 1000)
    (hr' : (r'.totalMem - r'.freeMem) / r'.totalMem = 9 / 10) :
    memoryAlerts (buildRealMetrics ts r) = [memWarnStr (buildRealMetrics ts r)] ∧
    memWarnStr (buildRealMetrics ts r) = "🟡 WARNING: High memory usage: 95%" ∧
    memoryAlerts (buildRealMetrics ts r') = [] := by
  have h95 : (buildRealMetrics ts r).memoryUsage = 95 := by
    show jsRound ((r.totalMem - r.freeMem) / r.totalMem * 100) = 95
    rw [hr, jsRound_eq_floor]
    norm_num
  have h90 : (buildRealMetrics ts r').memoryUsage = 90 := by
    show jsRound ((r'.totalMem - r'.freeMem) / r'.totalMem * 100) = 90
    rw [hr', jsRound_eq_floor]
    norm_num
  refine ⟨?_, ?_, ?_⟩
  · rw [memoryAlerts.eq_def, h95]
    norm_num
  · rw [memWarnStr.eq_def, h95]
    decide
  · rw [memoryAlerts.eq_def, h90]
    norm_num

/-- Witness for C1 at the concrete readings with ratios 0.951 and 0.90. -/
theorem c1_memory_boundary_alerts_witness :
    memoryAlerts (buildRealMetrics "t" rawSample951) =
      [memWarnStr (buildRealMetrics "t" rawSample951)] ∧
    memWarnStr (buildRealMetrics "t" rawSample951) = "🟡 WARNING: High memory usage: 95%" ∧
    memoryAlerts (buildRealMetrics "t" rawSample90) = [] :=
  c1_memory_boundary_alerts "t" rawSample951 rawSample90
    (by norm_num [rawSample951]) (by norm_num [rawSample90, rawSample951])

/-- Counterexample to C1 as stated: on the concrete metrics whose memory
used ratio is exactly 0.951, evaluating the alert rules produces no
CRITICAL-tagged alert whatsoever — the memory alert produced carries the
WARNING tag. -/
theorem c1_counterexample :
    (checkRealAlerts metrics951).any (fun a => jsIncludes a "🔴 CRITICAL") = false ∧
    checkRealAlerts metrics951 = ["🟡 WARNING: High memory usage: 95%"] := by
  rw [checkRealAlerts_metrics951]
  exact ⟨by decide, rfl⟩

theorem metricsCpu_cpuLoad : metricsCpu.cpuLoad = 6 := by
  show roundTo2 rawSampleCpu.loadavg1 = 6
  rw [roundTo2, jsRound_eq_floor]
  norm_num [rawSampleCpu, rawSample951]

theorem metricsCpu_memoryUsage : metricsCpu.memoryUsage = 50 := by
  show jsRound ((rawSampleCpu.totalMem - rawSampleCpu.freeMem) / rawSampleCpu.totalMem * 100) = 50
  rw [jsRound_eq_floor]
  norm_num [rawSampleCpu, rawSample951]

theorem metricsCpu_openclawStatus : metricsCpu.openclawStatus = "RUNNING" := rfl

theorem metricsCpu_diskUsageGB : metricsCpu.diskUsageGB = 0 := by
  show jsRound (rawSampleCpu.blocks * rawSampleCpu.blksize / (1024 * 1024 * 1024)) = 0
  rw [jsRound_eq_floor]
  norm_num [rawSampleCpu, rawSample951]

theorem metricsCpu_processCount : metricsCpu.processCount = 99 := by
  show rawSampleCpu.psCount - 1 = 99
  norm_num [rawSampleCpu, rawSample951]

/-- The alerts produced when only the CPU rule fires: a single untagged
alert string carrying neither the critical nor the warning emoji tag. -/
theorem checkRealAlerts_metricsCpu :
    checkRealAlerts metricsCpu = ["High CPU load: 6 (1-minute average)"] := by
  rw [checkRealAlerts_decomp]
  rw [cpuAlerts.eq_def, memoryAlerts.eq_def, openclawAlerts.eq_def,
    diskAlerts.eq_def, processAlerts.eq_def, cpuAlertStr.eq_def]
  rw [metricsCpu_cpuLoad, metricsCpu_memoryUsage, metricsCpu_openclawStatus,
    metricsCpu_diskUsageGB, metricsCpu_processCount]
  norm_num
  decide

/-- C2 (corrected): after one monitoring cycle the summary status derived
from the logged check is CRITICAL exactly when some alert carries the
`🔴 CRITICAL` tag, WARNING exactly when the alert list is non-empty with
no critical-tagged alert (whatever the other alerts' tags), and HEALTHY
exactly when no alert fired. -/
theorem c2_overall_health_characterisation (logs : LogState) (m : Metrics) :
    (generateSummaryStatus (logCheck logs m (checkRealAlerts m)).1.checks.getLast? = "CRITICAL" ↔
      ∃ a ∈ checkRealAlerts m, jsIncludes a "🔴 CRITICAL" = true) ∧
    (generateSummaryStatus (logCheck logs m (checkRealAlerts m)).1.checks.getLast? = "WARNING" ↔
      checkRealAlerts m ≠ [] ∧ ∀ a ∈ checkRealAlerts m, jsIncludes a "🔴 CRITICAL" = false) ∧
    (generateSummaryStatus (logCheck logs m (checkRealAlerts m)).1.checks.getLast? = "HEALTHY" ↔
      checkRealAlerts m = []) := by
  rw [logCheck_getLast]
  simp only [generateSummaryStatus, mkCheck]
  rcases halerts : checkRealAlerts m with _ | ⟨a, as⟩
  · simp
  · simp only [List.length_cons, gt_iff_lt, Nat.zero_lt_succ, if_true]
    by_cases hany : (a :: as).any (fun x => jsIncludes x "🔴 CRITICAL") = true
    · rw [if_pos hany]
      rw [List.any_eq_true] at hany
      refine ⟨⟨fun _ => hany, fun _ => rfl⟩, ?_, ?_⟩
      · constructor
        · intro h
          exact absurd h (by decide)
        · rintro ⟨-, hall⟩
          obtain ⟨x, hx, hpx⟩ := hany
          exact absurd (hall x hx) (by simp [hpx])
      · constructor
        · intro h
          exact absurd h (by decide)
        · intro h
          exact absurd h (by simp)
    · rw [if_neg hany]
      rw [List.any_eq_true] at hany
      push_neg at hany
      refine ⟨?_, ?_, ?_⟩
      · constructor
        · intro h
          exact absurd h (by decide)
        · rintro ⟨x, hx, hpx⟩
          exact absurd hpx (by simpa using hany x hx)
      · refine ⟨fun _ => ⟨by simp, fun x hx => ?_⟩, fun _ => rfl⟩
        simpa using hany x hx
      · constructor
        · intro h
          exact absurd h (by decide)
        · intro h
          exact absurd h (by simp)

/-- Witness for C2 at the concrete CPU-only metrics and the empty log. -/
theorem c2_overall_health_characterisation_witness :
    (generateSummaryStatus
        (logCheck emptyLogs metricsCpu (checkRealAlerts metricsCpu)).1.checks.getLast? = "CRITICAL" ↔
      ∃ a ∈ checkRealAlerts metricsCpu, jsIncludes a "🔴 CRITICAL" = true) ∧
    (generateSummaryStatus
        (logCheck emptyLogs metricsCpu (checkRealAlerts metricsCpu)).1.checks.getLast? = "WARNING" ↔
      checkRealAlerts metricsCpu ≠ [] ∧
        ∀ a ∈ checkRealAlerts metricsCpu, jsIncludes a "🔴 CRITICAL" = false) ∧
    (generateSummaryStatus
        (logCheck emptyLogs metricsCpu (checkRealAlerts metricsCpu)).1.checks.getLast? = "HEALTHY" ↔
      checkRealAlerts metricsCpu = []) :=
  c2_overall_health_characterisation emptyLogs metricsCpu

/-- Counterexample to C2 as stated: after a cycle whose only alert is the
untagged CPU alert, the derived status is WARNING although no alert
carries the `🟡 WARNING` tag (and none carries the critical tag), so
"WARNING iff at least one warning-tagged alert" fails on the code. -/
theorem c2_counterexample :
    generateSummaryStatus
        (logCheck emptyLogs metricsCpu (checkRealAlerts metricsCpu)).1.checks.getLast? =
      "WARNING" ∧
    (checkRealAlerts metricsCpu).any (fun a => jsIncludes a "🟡 WARNING") = false ∧
    (checkRealAlerts metricsCpu).any (fun a => jsIncludes a "🔴 CRITICAL") = false := by
  rw [logCheck_getLast]
  simp only [generateSummaryStatus, mkCheck, checkRealAlerts_metricsCpu]
  exact ⟨by decide, by decide, by decide⟩

/-- C4 (confirmed): for every configured target list, once every probe has
completed — in any completion order — the snapshot's `services` sequence
has exactly one entry per configured target and lists them in the original
configured order, not in completion order. -/
theorem c4_services_configured_order (now : String) (targets : List (String × String))
    (order : List (Fin targets.length)) (outcomes : Fin targets.length → ProbeOutcome)
    (h : order.Perm (List.finRange targets.length)) :
    (statusServices now targets order outcomes).length = targets.length ∧
    statusServices now targets order outcomes =
      (List.finRange targets.length).map
        (fun i => some (checkService now (targets.get i).1 (targets.get i).2 (outcomes i))) := by
  constructor
  · rw [statusServices, promiseAll, foldl_set_length, List.length_replicate]
  · exact promiseAll_of_perm _ order h

/-- Witness for C4: the four configured services probed with every request
timing out, completing in reversed dispatch order. -/
theorem c4_services_configured_order_witness :
    (statusServices "T" SERVICES reversedOrder failingOutcomes).length = SERVICES.length ∧
    statusServices "T" SERVICES reversedOrder failingOutcomes =
      (List.finRange SERVICES.length).map
        (fun i => some (checkService "T" (SERVICES.get i).1 (SERVICES.get i).2
          (failingOutcomes i))) :=
  c4_services_configured_order "T" SERVICES reversedOrder failingOutcomes
    (List.reverse_perm _)

/-- C5 (corrected): the `/api/status` aggregation returns a snapshot for
every combination of probe outcomes whenever the system-metric read
succeeds — each failed probe appears inside the snapshot as a critical
per-service entry — but when the metric read itself throws, the handler
returns a 500 error payload instead of a snapshot. -/
theorem c5_snapshot_error_behaviour (now msg : String) (r : OsReadings)
    (order : List (Fin SERVICES.length)) (outcomes : Fin SERVICES.length → ProbeOutcome) :
    apiStatus now (.ok r) order outcomes =
      .ok { timestamp := now, system := getSystemMetrics r,
            services := statusServices now SERVICES order outcomes } ∧
    apiStatus now (.error msg) order outcomes = .error (500, msg) ∧
    (order.Perm (List.finRange SERVICES.length) →
      ∀ i : Fin SERVICES.length,
        (statusServices now SERVICES order outcomes)[i.val]? =
          some (some (checkService now (SERVICES.get i).1 (SERVICES.get i).2 (outcomes i)))) ∧
    (∀ (i : Fin SERVICES.length) (e : ℕ) (em : String),
      (SERVICES.get i).2 ≠ "local" →
      (checkService now (SERVICES.get i).1 (SERVICES.get i).2 (.timeout e em)).status =
        "critical") := by
  refine ⟨rfl, rfl, ?_, ?_⟩
  · intro hperm i
    rw [statusServices, promiseAll_of_perm _ order hperm, List.getElem?_map,
      List.getElem?_eq_getElem (by rw [List.length_finRange]; exact i.isLt)]
    simp [List.getElem_finRange]
  · intro i e em hne
    rw [List.get_eq_getElem] at hne
    simp [checkService, if_neg hne]

/-- Witness for C5: the metric read succeeds while every probe times out in
reversed completion order; the second configured service's slot holds its
own critical probe result. -/
theorem c5_snapshot_error_behaviour_witness :
    (statusServices "T" SERVICES reversedOrder failingOutcomes)[(1 : ℕ)]? =
      some (some (checkService "T" (SERVICES.get ⟨1, by decide⟩).1
        (SERVICES.get ⟨1, by decide⟩).2 (failingOutcomes ⟨1, by decide⟩))) ∧
    (checkService "T" (SERVICES.get ⟨1, by decide⟩).1 (SERVICES.get ⟨1, by decide⟩).2
      (.timeout 5000 "timeout of 5000ms exceeded")).status = "critical" :=
  ⟨(c5_snapshot_error_behaviour "T" "unused" ⟨16, 8, 500, 250, 10, "1d 2h 3m"⟩
      reversedOrder failingOutcomes).2.2.1 (List.reverse_perm _) ⟨1, by decide⟩,
    (c5_snapshot_error_behaviour "T" "unused" ⟨16, 8, 500, 250, 10, "1d 2h 3m"⟩
      reversedOrder failingOutcomes).2.2.2 ⟨1, by decide⟩ 5000
      "timeout of 5000ms exceeded" (by decide)⟩

/-- Counterexample to C5 as stated: when the system-metric source fails
(`statfsSync` throws) and every probe times out, `/api/status` answers
with a 500 error payload, not with a snapshot. -/
theorem c5_counterexample :
    apiStatus "T" (.error "ENOSYS: statfs failed") reversedOrder failingOutcomes =
      .error (500, "ENOSYS: statfs failed") := rfl

/-- C6 (confirmed): for every single-service probe against a real URL, a
request that ends in a network error, a non-2xx response (axios rejects
it) or a timeout yields a critical `ServiceStatus` whose `error` field
holds the thrown message, while a 2xx response within the timeout yields
a healthy status with the measured (non-negative) response time and no
`error` field. -/
theorem c6_probe_classification (now name url : String) (h : url ≠ "local") :
    (∀ (e : ℕ) (v : Option String),
      (checkService now name url (.ok e v)).status = "healthy" ∧
      (checkService now name url (.ok e v)).error = none ∧
      (checkService now name url (.ok e v)).responseTime = e ∧
      0 ≤ (checkService now name url (.ok e v)).responseTime) ∧
    (∀ (e : ℕ) (msg : String),
      (checkService now name url (.networkError e msg)).status = "critical" ∧
      (checkService now name url (.networkError e msg)).error = some msg) ∧
    (∀ (e code : ℕ) (msg : String),
      (checkService now name url (.httpError e code msg)).status = "critical" ∧
      (checkService now name url (.httpError e code msg)).error = some msg) ∧
    (∀ (e : ℕ) (msg : String),
      (checkService now name url (.timeout e msg)).status = "critical" ∧
      (checkService now name url (.timeout e msg)).error = some msg) := by
  simp [checkService, if_neg h]

/-- Witness for C6 at the first configured URL: a 2xx outcome and a
timeout outcome. -/
theorem c6_probe_classification_witness :
    ((checkService "T" "ollama-api" "http://localhost:3002/health"
        (.ok 42 none)).status = "healthy" ∧
      (checkService "T" "ollama-api" "http://localhost:3002/health"
        (.ok 42 none)).error = none ∧
      (checkService "T" "ollama-api" "http://localhost:3002/health"
        (.ok 42 none)).responseTime = 42 ∧
      0 ≤ (checkService "T" "ollama-api" "http://localhost:3002/health"
        (.ok 42 none)).responseTime) ∧
    ((checkService "T" "ollama-api" "http://localhost:3002/health"
        (.timeout 5000 "timeout of 5000ms exceeded")).status = "critical" ∧
      (checkService "T" "ollama-api" "http://localhost:3002/health"
        (.timeout 5000 "timeout of 5000ms exceeded")).error =
        some "timeout of 5000ms exceeded") :=
  ⟨(c6_probe_classification "T" "ollama-api" "http://localhost:3002/health"
      (by decide)).1 42 none,
    (c6_probe_classification "T" "ollama-api" "http://localhost:3002/health"
      (by decide)).2.2.2 5000 "timeout of 5000ms exceeded"⟩

/-- C7 (code bug): the endpoint behaves as claimed for a configured name
(`ollama-api` is probed exactly once and its `ServiceStatus` returned)
and for an ordinary unknown name (`nope` gets the 404 and no probe), but
at the failing input `constructor` — an unconfigured name that is an
`Object.prototype` member — the bracket lookup returns a truthy inherited
value, the 404 branch is bypassed, `checkService` is invoked anyway, and
the handler dies with a `TypeError` instead of answering 404: the code
contradicts the claim (and the spec's "404-equivalent, not a crash"). -/
theorem c7_health_endpoint_prototype_bug :
    apiHealth "T" "ollama-api" (.ok 42 none) =
      (.status (checkService "T" "ollama-api" "http://localhost:3002/health"
        (.ok 42 none)), 1) ∧
    apiHealth "T" "nope" (.ok 42 none) = (.notFound, 0) ∧
    "constructor" ∉ SERVICES.map Prod.fst ∧
    servicesLookup "constructor" = .inherited ∧
    apiHealth "T" "constructor" (.ok 42 none) =
      (.unhandledError "url.replace is not a function", 1) ∧
    (apiHealth "T" "constructor" (.ok 42 none)).1 ≠ .notFound ∧
    (apiHealth "T" "constructor" (.ok 42 none)).2 ≠ 0 := by
  refine ⟨?_, ?_, ?_, ?_, ?_, ?_, ?_⟩ <;> decide

/-- C10 (confirmed): probing the built-in pseudo-service whose configured
URL is the `local` marker returns, for every probe outcome, the fixed
healthy record with response time 1 and no error — it can never be
reported critical; and `system ↦ local` is indeed a configured target. -/
theorem c10_local_probe_always_healthy (now name : String) (outcome : ProbeOutcome) :
    checkService now name "local" outcome =
      { name := name, url := "System", status := "healthy", responseTime := 1,
        version := none, error := none, timestamp := now, emoji := "💻" } ∧
    (checkService now name "local" outcome).status ≠ "critical" ∧
    ("system", "local") ∈ SERVICES := by
  refine ⟨rfl, ?_, by decide⟩
  simp [checkService]

end Monitoring
